import Mathlib

/-!
# Verification of the location/weather acquisition pipeline

Shallow embedding of the core data-fetch pipeline of the dashboard
(`src/hooks/useAppLocation.ts`, i.e. `src/unnamed/part_005`, and
`src/hooks/useWeather.ts`, with constants from `src/lib/constants.ts`).

JavaScript numbers are modelled by `JsNum` (rationals plus the non-finite
values `NaN`, `Infinity`, `-Infinity`); a JS `undefined` number behaves the
same as `NaN` in every operation the code applies to it (truthiness,
`isFinite`, `<` comparisons), so `JsNum.nan` also stands for an absent
numeric field where that matters.  Network and device interactions are
modelled by explicit environment values listing the outcome of each
attempt; the model counts the network requests issued and records the
back-off delays performed.
-/

/-- Model of a JavaScript number: a rational, or one of the non-finite values. -/
inductive JsNum where
  | nan
  | posInf
  | negInf
  | num (q : ℚ)
deriving DecidableEq, Repr

/-- `Number.isFinite` / global `isFinite` on a JS number. -/
def JsNum.isFinite : JsNum → Bool
  | .num _ => true
  | _ => false

/-- The JS `<` comparison on numbers (`NaN` compares false with everything). -/
def JsNum.lt : JsNum → JsNum → Bool
  | .nan, _ => false
  | _, .nan => false
  | .negInf, .negInf => false
  | .negInf, _ => true
  | _, .negInf => false
  | .posInf, _ => false
  | .num _, .posInf => true
  | .num a, .num b => decide (a < b)

/-- JS truthiness of a number: `0` and `NaN` are falsy. -/
def JsNum.truthy : JsNum → Bool
  | .nan => false
  | .num q => decide (q ≠ 0)
  | _ => true

/-- The coordinate-validation test shared by `useWeather.ts:58-67` and
`useAppLocation` (`part_005:173-180`):
`!isFinite(lat) || !isFinite(lon) || lat < -90 || lat > 90 || lon < -180 || lon > 180`. -/
def invalidCoords (lat lon : JsNum) : Bool :=
  !lat.isFinite || !lon.isFinite ||
  JsNum.lt lat (.num (-90)) || JsNum.lt (.num 90) lat ||
  JsNum.lt lon (.num (-180)) || JsNum.lt (.num 180) lon

/-! ## Reverse geocoding (`fetchLocationName`, part_005:170-250) -/

/-- Constant `RETRY_CONFIG.MAX_RETRIES` (`src/lib/constants.ts`). -/
def MAX_RETRIES : Nat := 3

/-- Constant `RETRY_CONFIG.DELAY` in milliseconds (`src/lib/constants.ts`). -/
def RETRY_DELAY : Nat := 1000

/-- An entry of `data.localityInfo.informative`. -/
structure InformativeItem where
  description : String
  name : String
deriving DecidableEq, Repr

/-- The fields of a reverse-geocoding JSON response the code reads.
`informative = none` models `localityInfo` absent or `localityInfo.informative`
absent (the code reads it through optional chaining); string fields are
`none` when absent. -/
structure GeoPayload where
  informative : Option (List InformativeItem) := none
  locality : Option String := none
  city : Option String := none
  principalSubdivision : Option String := none
  countryName : Option String := none
deriving DecidableEq, Repr

/-- `data.localityInfo?.informative?.find(i => i.description === 'street')?.name`. -/
def GeoPayload.street (p : GeoPayload) : Option String :=
  (p.informative.bind (fun l => l.find? (fun i => i.description = "street"))).map
    (fun i => i.name)

/-- JS truthiness of a possibly-absent string: `undefined` and `""` are falsy.
Models the `if (street) parts.street = street;` / `if (data.locality) ...`
guards (part_005:215-220), which drop absent and empty fragments. -/
def strTruthy : Option String → Option String
  | some s => if s = "" then none else some s
  | none => none

/-- The five-slot fragment array `[parts.street, parts.locality, parts.city,
parts.subdivision, parts.country]` (part_005:222-227); a slot is `none` when
the corresponding `parts` key was never assigned (absent or empty field). -/
def geoFragments (p : GeoPayload) : List (Option String) :=
  [strTruthy p.street, strTruthy p.locality, strTruthy p.city,
   strTruthy p.principalSubdivision, strTruthy p.countryName]

/-- JS `Array.prototype.indexOf`: the first index holding the value, or `-1`
when absent. -/
def jsIndexOf : List (Option String) → Option String → Int
  | [], _ => -1
  | a :: l, v =>
    if a = v then 0
    else
      let r := jsIndexOf l v
      if r = -1 then -1 else r + 1

/-- The filter callback of part_005:228-230 applied at position `i` of the
fragment array with value `v`:
`(value, index, self) => value && self.indexOf(value) === index`, walking the
remaining suffix while tracking the current index. -/
def finalPartsAux (full : List (Option String)) : Nat → List (Option String) → List String
  | _, [] => []
  | i, none :: rest => finalPartsAux full (i + 1) rest
  | i, some s :: rest =>
    if s ≠ "" ∧ jsIndexOf full (some s) = (i : Int) then s :: finalPartsAux full (i + 1) rest
    else finalPartsAux full (i + 1) rest

/-- `finalParts` of part_005:222-230: the fragment array filtered to truthy
first occurrences. -/
def finalParts (full : List (Option String)) : List String :=
  finalPartsAux full 0 full

/-- Deduplication keeping the first occurrence of each value, in order; this is
the specification-side description of the `displayName` construction
("deduplicated by value while preserving first-occurrence order"). -/
def dedupKeepFirst : List String → List String
  | [] => []
  | x :: xs => x :: dedupKeepFirst (xs.filter (fun y => y ≠ x))
termination_by l => l.length
decreasing_by
  simp only [List.length_cons]
  exact Nat.lt_succ_of_le (List.length_filter_le _ _)

/-- The fragments actually present in a reverse-geocoding payload, in the fixed
order street, locality, city, principalSubdivision, countryName. -/
def presentFragments (p : GeoPayload) : List String :=
  (geoFragments p).filterMap id

/-- Accumulator form of the first-occurrence filter: walk the slots in order,
keeping a truthy value the first time it appears.  Used to relate
`finalParts` to `dedupKeepFirst`. -/
def goSeen (seen : List String) : List (Option String) → List String
  | [] => []
  | none :: t => goSeen seen t
  | some v :: t =>
    if v = "" ∨ v ∈ seen then goSeen seen t
    else v :: goSeen (v :: seen) t

/-- Outcome of one reverse-geocoding network attempt, as observed by the code:
the `fetch` rejects (`transport`, with `isAbort = true` when the rejection is
the `AbortError` raised by the timeout), resolves with a non-OK status
(`httpError`), or resolves OK with a parsed JSON payload (`success`). -/
inductive GeoAttempt where
  | transport (isAbort : Bool) (msg : String)
  | httpError (status : Nat)
  | success (payload : GeoPayload)
deriving DecidableEq, Repr

/-- Observable trace of a retry loop: how many network requests were issued and
which back-off delays (ms) were awaited, in order. -/
structure FetchTrace where
  fetches : Nat
  waits : List Nat
deriving DecidableEq, Repr

instance {ε α : Type} [DecidableEq ε] [DecidableEq α] : DecidableEq (Except ε α) := fun a b =>
  match a, b with
  | .ok x, .ok y =>
    if h : x = y then .isTrue (by rw [h]) else .isFalse (by simp [h])
  | .error x, .error y =>
    if h : x = y then .isTrue (by rw [h]) else .isFalse (by simp [h])
  | .ok _, .error _ => .isFalse (by simp)
  | .error _, .ok _ => .isFalse (by simp)

/-- Result of a `fetchLocationName` run: the resolved display name or the
propagated error message, together with the trace. -/
structure GeoRun where
  result : Except String String
  trace : FetchTrace
deriving DecidableEq, Repr

/-- The retry loop of `fetchLocationName` (part_005:184-246), one iteration per
attempt (1-based), consuming one environment outcome per attempt:
* non-OK status: on attempt `MAX_RETRIES` propagate `Reverse geocode response
  not OK`, else wait `DELAY * attempt` and retry;
* transport failure: on attempt `MAX_RETRIES` rethrow it; otherwise an abort
  (timeout) throws `Reverse geocoding request timeout` immediately, and any
  other failure waits `DELAY * attempt` and retries;
* success: join the truthy, first-occurrence fragments; an empty fragment list
  throws `No location parts found`, which the same catch block retries
  (or propagates on the last attempt). -/
def geoLoop : Nat → List GeoAttempt → Nat → List Nat → GeoRun
  | _, [], fetches, waits =>
    ⟨.error "Failed to fetch location name after retries", ⟨fetches, waits⟩⟩
  | attempt, o :: rest, fetches, waits =>
    let f := fetches + 1
    match o with
    | .httpError status =>
      if attempt = MAX_RETRIES then
        ⟨.error ("Reverse geocode response not OK: " ++ toString status), ⟨f, waits⟩⟩
      else geoLoop (attempt + 1) rest f (waits ++ [RETRY_DELAY * attempt])
    | .transport isAbort msg =>
      if attempt = MAX_RETRIES then ⟨.error msg, ⟨f, waits⟩⟩
      else if isAbort then ⟨.error "Reverse geocoding request timeout", ⟨f, waits⟩⟩
      else geoLoop (attempt + 1) rest f (waits ++ [RETRY_DELAY * attempt])
    | .success p =>
      let fp := finalParts (geoFragments p)
      if fp ≠ [] then ⟨.ok (String.intercalate ", " fp), ⟨f, waits⟩⟩
      else if attempt = MAX_RETRIES then ⟨.error "No location parts found", ⟨f, waits⟩⟩
      else geoLoop (attempt + 1) rest f (waits ++ [RETRY_DELAY * attempt])

/-- `fetchLocationName` (part_005:170-250): coordinate validation followed by
the retry loop. -/
def fetchLocationName (lat lon : JsNum) (outcomes : List GeoAttempt) : GeoRun :=
  if invalidCoords lat lon then
    ⟨.error "Invalid coordinates for reverse geocoding", ⟨0, []⟩⟩
  else geoLoop 1 outcomes 0 []

example :
    fetchLocationName (.num 40) (.num (-3))
      [.success { locality := some "Centro", city := some "Madrid",
                  countryName := some "Spain" }]
      = ⟨.ok "Centro, Madrid, Spain", ⟨1, []⟩⟩ := by decide

example :
    fetchLocationName (.num 40) (.num (-3))
      [.transport true "abort", .success { city := some "Madrid" }]
      = ⟨.error "Reverse geocoding request timeout", ⟨1, []⟩⟩ := by decide

example :
    fetchLocationName (.num 40) (.num (-3))
      [.httpError 500, .transport false "down", .success { city := some "Madrid" }]
      = ⟨.ok "Madrid", ⟨3, [1000, 2000]⟩⟩ := by decide

example :
    fetchLocationName (.num 91) (.num 0) [.success { city := some "Madrid" }]
      = ⟨.error "Invalid coordinates for reverse geocoding", ⟨0, []⟩⟩ := by decide

example :
    finalParts [some "A", none, some "B", some "A", some "C"] = ["A", "B", "C"] := by decide

/-! ## Location acquisition (`getLocation`, part_005:257-411) -/

/-- Constant `CACHE_DURATION.LOCATION` in milliseconds (`src/lib/constants.ts`). -/
def CACHE_LOCATION : Nat := 10 * 60 * 1000

/-- `LocationData` (part_005:132-136). -/
structure LocationData where
  latitude : JsNum
  longitude : JsNum
  displayName : String
deriving DecidableEq, Repr

/-- What `localStorage.getItem('user-location')` holds, as seen through
`JSON.parse`: a string that is not valid JSON (`invalidJson`, carrying the
parse error's message), or a serialized `LocationCache` entry
`{timestamp, data}` (part_005:138-141). -/
inductive CacheVal where
  | invalidJson (msg : String)
  | entry (timestamp : Nat) (data : LocationData)
deriving DecidableEq, Repr

/-- Outcome of the `navigator.geolocation.getCurrentPosition` request
(part_005:277-287): the API is missing, it reports an error (permission
denied / timeout / ...), or it yields a position. -/
inductive GeoPosition where
  | unsupported
  | failure (msg : String)
  | position (lat lon : JsNum)
deriving DecidableEq, Repr

/-- The fields of an IP-geolocation JSON response the code reads
(part_005:344-366).  Absent numeric fields behave as `NaN` in every operation
applied to them (truthiness, `isFinite`, `<`), so they are modelled by
`JsNum.nan`. -/
structure IpPayload where
  latitude : JsNum
  longitude : JsNum
  city : Option String := none
  region : Option String := none
  country_name : Option String := none
deriving DecidableEq, Repr

/-- Outcome of one IP-geolocation network attempt. -/
inductive IpAttempt where
  | transport (isAbort : Bool) (msg : String)
  | httpError (status : Nat)
  | success (payload : IpPayload)
deriving DecidableEq, Repr

/-- The IP payload validation of part_005:345-356:
`!data.latitude || !data.longitude || !isFinite(..) || lat < -90 || lat > 90
|| lon < -180 || lon > 180` (note the truthiness test, which also rejects a
zero coordinate). -/
def ipInvalid (p : IpPayload) : Bool :=
  !p.latitude.truthy || !p.longitude.truthy ||
  !p.latitude.isFinite || !p.longitude.isFinite ||
  JsNum.lt p.latitude (.num (-90)) || JsNum.lt (.num 90) p.latitude ||
  JsNum.lt p.longitude (.num (-180)) || JsNum.lt (.num 180) p.longitude

/-- `[data.city, data.region, data.country_name].filter(Boolean).join(', ')
|| 'Ubicación desconocida'` (part_005:358-361): absent and empty fragments
are dropped; an empty join falls back to the sentinel text. -/
def ipDisplayName (p : IpPayload) : String :=
  let j := String.intercalate ", " ([p.city, p.region, p.country_name].filterMap strTruthy)
  if j = "" then "Ubicación desconocida" else j

/-- Result of the IP-fallback loop: a location, or a thrown error message. -/
inductive IpResult where
  | ok (loc : LocationData)
  | err (msg : String)
deriving DecidableEq, Repr

/-- The IP-fallback retry loop (part_005:319-380), one iteration per attempt
(1-based):
* non-OK status: propagate `IP API response not OK` on the last attempt, else
  wait `DELAY * attempt` and retry;
* transport failure: rethrow on the last attempt; otherwise an abort throws
  `IP location request timeout` immediately, any other failure waits and
  retries;
* success: an invalid payload throws `IP API did not return valid
  coordinates`, which the same catch retries (or propagates on the last
  attempt); a valid payload yields the location and breaks the loop. -/
def ipLoop : Nat → List IpAttempt → Nat → List Nat → IpResult × FetchTrace
  | _, [], fetches, waits =>
    (.err "Failed to obtain location from both geolocation and IP fallback", ⟨fetches, waits⟩)
  | attempt, o :: rest, fetches, waits =>
    let f := fetches + 1
    match o with
    | .httpError status =>
      if attempt = MAX_RETRIES then
        (.err ("IP API response not OK: " ++ toString status), ⟨f, waits⟩)
      else ipLoop (attempt + 1) rest f (waits ++ [RETRY_DELAY * attempt])
    | .transport isAbort msg =>
      if attempt = MAX_RETRIES then (.err msg, ⟨f, waits⟩)
      else if isAbort then (.err "IP location request timeout", ⟨f, waits⟩)
      else ipLoop (attempt + 1) rest f (waits ++ [RETRY_DELAY * attempt])
    | .success p =>
      if ipInvalid p then
        if attempt = MAX_RETRIES then
          (.err "IP API did not return valid coordinates", ⟨f, waits⟩)
        else ipLoop (attempt + 1) rest f (waits ++ [RETRY_DELAY * attempt])
      else (.ok ⟨p.latitude, p.longitude, ipDisplayName p⟩, ⟨f, waits⟩)

/-- The environment of one `getLocation` run: the geolocation outcome, the
reverse-geocoding attempt outcomes, and the IP-lookup attempt outcomes. -/
structure LocEnv where
  geo : GeoPosition
  geoOutcomes : List GeoAttempt := []
  ipOutcomes : List IpAttempt := []
deriving DecidableEq, Repr

/-- The observable outcome of one `getLocation` run: final hook state
(`location`, `error`, `loading`), the cache cell after the run, whether the
geolocation phase was reached (i.e. the cached-return path was not taken),
and the number of network requests issued. -/
structure LocRun where
  location : Option LocationData
  error : Option String
  loading : Bool
  cache : Option CacheVal
  geoAttempted : Bool
  fetches : Nat
deriving DecidableEq, Repr

/-- The IP-fallback phase plus the epilogue of `getLocation`
(part_005:318-408): on success, publish the location and overwrite the cache
with `{timestamp: now, data}`; on a thrown error, the outer catch publishes
the message and leaves `location` and the cache as they were. -/
def ipPhase (prev : Option LocationData) (cache : Option CacheVal) (now : Nat)
    (ipOutcomes : List IpAttempt) (fetches : Nat) : LocRun :=
  match ipLoop 1 ipOutcomes fetches [] with
  | (.ok loc, tr) => ⟨some loc, none, false, some (.entry now loc), true, tr.fetches⟩
  | (.err msg, tr) => ⟨prev, some msg, false, cache, true, tr.fetches⟩

/-- The fresh-resolution path of `getLocation` (part_005:277-393): geolocation,
coordinate validation, reverse geocoding; any failure in that inner `try`
falls through to the IP fallback. -/
def resolveFresh (prev : Option LocationData) (cache : Option CacheVal) (now : Nat)
    (env : LocEnv) : LocRun :=
  match env.geo with
  | .position lat lon =>
    if invalidCoords lat lon then ipPhase prev cache now env.ipOutcomes 0
    else
      match fetchLocationName lat lon env.geoOutcomes with
      | ⟨.ok name, tr⟩ =>
        ⟨some ⟨lat, lon, name⟩, none, false, some (.entry now ⟨lat, lon, name⟩),
         true, tr.fetches⟩
      | ⟨.error _, tr⟩ => ipPhase prev cache now env.ipOutcomes tr.fetches
  | _ => ipPhase prev cache now env.ipOutcomes 0

/-- `getLocation(force)` (part_005:257-411).  `prev` is the hook's `location`
state before the run, `cache` the persisted `'user-location'` cell, `now` the
wall clock.  With `force = false`, a present cache cell is `JSON.parse`d (a
parse failure propagates to the outer catch), and a fresh entry is returned
directly with no network activity. -/
def getLocation (force : Bool) (prev : Option LocationData) (cache : Option CacheVal)
    (now : Nat) (env : LocEnv) : LocRun :=
  if force = false then
    match cache with
    | some (.invalidJson msg) => ⟨prev, some msg, false, cache, false, 0⟩
    | some (.entry ts d) =>
      if now - ts < CACHE_LOCATION then ⟨some d, none, false, cache, false, 0⟩
      else resolveFresh prev cache now env
    | none => resolveFresh prev cache now env
  else resolveFresh prev cache now env

example :
    getLocation false none (some (.entry 1000 ⟨.num 40, .num (-3), "Madrid"⟩)) 500000
      { geo := .unsupported }
      = ⟨some ⟨.num 40, .num (-3), "Madrid"⟩, none, false,
         some (.entry 1000 ⟨.num 40, .num (-3), "Madrid"⟩), false, 0⟩ := by decide

example :
    getLocation false none (some (.invalidJson "Unexpected token")) 0
      { geo := .position (.num 40) (.num (-3)),
        geoOutcomes := [.success { city := some "Madrid" }] }
      = ⟨none, some "Unexpected token", false, some (.invalidJson "Unexpected token"),
         false, 0⟩ := by decide

example :
    getLocation true none none 7000
      { geo := .position (.num 40) (.num (-3)),
        geoOutcomes := [.success { city := some "Madrid" }] }
      = ⟨some ⟨.num 40, .num (-3), "Madrid"⟩, none, false,
         some (.entry 7000 ⟨.num 40, .num (-3), "Madrid"⟩), true, 1⟩ := by decide

example :
    getLocation true none none 7000
      { geo := .failure "denied",
        ipOutcomes := [.success { latitude := .num 1, longitude := .num 2 }] }
      = ⟨some ⟨.num 1, .num 2, "Ubicación desconocida"⟩, none, false,
         some (.entry 7000 ⟨.num 1, .num 2, "Ubicación desconocida"⟩), true, 1⟩ := by decide

/-! ## Weather acquisition (`fetchWeather`, useWeather.ts:50-169)

JSON payload fields are modelled as `Option ℚ`: `none` is a field the
provider left out (JS `undefined`), which the mapping code copies into the
produced record unchecked.  Reading a property of an *absent object* (e.g.
`current.condition.code` with `condition` absent) throws a `TypeError`;
the model mirrors those reads explicitly. -/

/-- `WeatherData` (useWeather.ts:9-18).  Field values are `Option ℚ` because
the mapping code can store `undefined` in a field when the provider payload
lacks it; a record is fully populated when every field `isSome`. -/
structure WeatherData where
  temperature : Option ℚ
  minTemperature : Option ℚ
  maxTemperature : Option ℚ
  humidity : Option ℚ
  uvIndex : Option ℚ
  weatherCode : Option ℚ
  rainProbability : Option ℚ
  airQuality : Option ℚ
deriving DecidableEq, Repr

/-- All eight fields are defined numeric values. -/
def WeatherData.fullyPopulated (w : WeatherData) : Prop :=
  w.temperature.isSome ∧ w.minTemperature.isSome ∧ w.maxTemperature.isSome ∧
  w.humidity.isSome ∧ w.uvIndex.isSome ∧ w.weatherCode.isSome ∧
  w.rainProbability.isSome ∧ w.airQuality.isSome

instance (w : WeatherData) : Decidable w.fullyPopulated := by
  unfold WeatherData.fullyPopulated; infer_instance

/-- JS `x || d` for a possibly-absent number `x`: `undefined` and `0` (and
`NaN`, not representable here) are falsy and give the default. -/
def jsOrQ (x : Option ℚ) (d : ℚ) : ℚ :=
  match x with
  | some v => if v = 0 then d else v
  | none => d

/-- `data.current.condition` of the primary (WeatherAPI.com) payload. -/
structure PrimaryCondition where
  code : Option ℚ := none
deriving DecidableEq, Repr

/-- `data.current.air_quality` of the primary payload;
`usEpaIndex` is the `'us-epa-index'` property. -/
structure PrimaryAQ where
  usEpaIndex : Option ℚ := none
deriving DecidableEq, Repr

/-- `data.current` of the primary payload; `condition = none` means the
`condition` object itself is absent (reading `.code` then throws). -/
structure PrimaryCurrent where
  temp_c : Option ℚ := none
  humidity : Option ℚ := none
  uv : Option ℚ := none
  condition : Option PrimaryCondition := none
  air_quality : Option PrimaryAQ := none
deriving DecidableEq, Repr

/-- `data.forecast.forecastday[0].day` of the primary payload. -/
structure PrimaryDay where
  mintemp_c : Option ℚ := none
  maxtemp_c : Option ℚ := none
  daily_chance_of_rain : Option ℚ := none
deriving DecidableEq, Repr

/-- `data.forecast.forecastday[0]` of the primary payload; `day = none` means
the `day` object is absent (reading `.mintemp_c` then throws). -/
structure PrimaryForecastDay where
  day : Option PrimaryDay := none
deriving DecidableEq, Repr

/-- The primary-provider JSON payload as the code reads it:
`current` and `forecast.forecastday[0]` may each be absent (`data?.current`,
`data?.forecast?.forecastday?.[0]`). -/
structure PrimaryPayload where
  current : Option PrimaryCurrent := none
  forecastday0 : Option PrimaryForecastDay := none
deriving DecidableEq, Repr

/-- The mapping of useWeather.ts:93-108: `none` when no record is produced —
either the `data?.current && data?.forecast?.forecastday?.[0]` check fails
(control falls through to the fallback), or building the record throws a
`TypeError` (absent `condition` or `day` object; the surrounding catch then
falls through to the fallback as well). -/
def mapPrimary (p : PrimaryPayload) : Option WeatherData :=
  match p.current, p.forecastday0 with
  | some current, some forecast =>
    match current.condition, forecast.day with
    | some condition, some day =>
      some
        { temperature := current.temp_c
          minTemperature := day.mintemp_c
          maxTemperature := day.maxtemp_c
          humidity := current.humidity
          uvIndex := current.uv
          weatherCode := condition.code
          rainProbability := day.daily_chance_of_rain
          airQuality := some (jsOrQ (current.air_quality.bind (fun a => a.usEpaIndex)) 1) }
    | _, _ => none
  | _, _ => none

/-- `data.current` of the secondary (Open-Meteo) payload. -/
structure SecondaryCurrent where
  temperature_2m : Option ℚ := none
  relative_humidity_2m : Option ℚ := none
  uv_index : Option ℚ := none
  weather_code : Option ℚ := none
  precipitation_probability : Option ℚ := none
deriving DecidableEq, Repr

/-- `data.daily` of the secondary payload; an array field set to `none` is
absent (indexing it with `[0]` then throws), and an empty array yields
`undefined` at index 0. -/
structure SecondaryDaily where
  temperature_2m_max : Option (List ℚ) := none
  temperature_2m_min : Option (List ℚ) := none
deriving DecidableEq, Repr

/-- The secondary-provider JSON payload as the code reads it. -/
structure SecondaryPayload where
  current : Option SecondaryCurrent := none
  daily : Option SecondaryDaily := none
deriving DecidableEq, Repr

/-- The mapping of useWeather.ts:136-150: a record, or a thrown error —
`Invalid weather data structure` when `data?.current && data?.daily` fails,
or a `TypeError` when a daily temperature array is absent. -/
def mapSecondary (p : SecondaryPayload) : Except String WeatherData :=
  match p.current, p.daily with
  | some current, some daily =>
    match daily.temperature_2m_min, daily.temperature_2m_max with
    | some mins, some maxs =>
      .ok
        { temperature := current.temperature_2m
          minTemperature := mins.get? 0
          maxTemperature := maxs.get? 0
          humidity := current.relative_humidity_2m
          uvIndex := current.uv_index
          weatherCode := current.weather_code
          rainProbability := some (jsOrQ current.precipitation_probability 0)
          airQuality := some 1 }
    | _, _ => .error "TypeError: cannot read daily temperature array"
  | _, _ => .error "Invalid weather data structure"

/-- Outcome of one weather-provider request: transport failure (with
`isAbort = true` for the timeout abort), or a response with its `ok` flag,
status, and parsed payload. -/
inductive WAttempt (P : Type) where
  | transport (isAbort : Bool) (msg : String)
  | response (ok : Bool) (status : Nat) (payload : P)
deriving DecidableEq, Repr

/-- The environment of one `fetchWeather` run: the configured
`NEXT_PUBLIC_WEATHERAPI_KEY` (if any) and the outcome each provider request
would produce. -/
structure WEnv where
  apiKey : Option String := none
  primary : WAttempt PrimaryPayload := .transport false "unused"
  secondary : WAttempt SecondaryPayload := .transport false "unused"
deriving DecidableEq, Repr

/-- The hook state `fetchWeather` reads and writes. -/
structure WState where
  weather : Option WeatherData
  error : Option String
  loading : Bool
deriving DecidableEq, Repr

/-- What the primary phase (useWeather.ts:70-117) produces: a record when the
key is a non-empty string, the request resolves OK, and the payload maps to a
record; in every other case it falls through to the secondary provider
(transport failures and `TypeError`s are swallowed by its own catch).  Also
returns the number of requests the phase issued. -/
def primaryPhase (env : WEnv) : Option WeatherData × Nat :=
  match env.apiKey with
  | none => (none, 0)
  | some key =>
    if key.length > 0 then
      match env.primary with
      | .transport _ _ => (none, 1)
      | .response ok _ payload => (if ok then mapPrimary payload else none, 1)
    else (none, 0)

/-- The error message assembled by the outer catch (useWeather.ts:151-160):
`Temp. N/A` with a `Request timeout` suffix for an `AbortError` and the
thrown message otherwise. -/
def weatherErrorMessage (isAbort : Bool) (msg : String) : String :=
  if isAbort then "Temp. N/A: Request timeout" else "Temp. N/A: " ++ msg

/-- JS truthiness of a possibly-`undefined` number. -/
def optNumTruthy : Option JsNum → Bool
  | some n => n.truthy
  | none => false

/-- `fetchWeather` (useWeather.ts:50-169).  Returns the new hook state and the
number of provider requests issued.  `if (!latitude || !longitude) return;`
makes the run a no-op whenever either input is absent or falsy (`0`, `NaN`);
otherwise the coordinate is validated, then the primary provider is tried,
then the secondary. -/
def fetchWeather (latitude longitude : Option JsNum) (env : WEnv) (st : WState) :
    WState × Nat :=
  if !(optNumTruthy latitude && optNumTruthy longitude) then (st, 0)
  else
    let lat := latitude.getD .nan
    let lon := longitude.getD .nan
    if invalidCoords lat lon then
      ({ st with error := some (weatherErrorMessage false "Invalid coordinates"),
                 loading := false }, 0)
    else
      match primaryPhase env with
      | (some w, n) => ({ weather := some w, error := none, loading := false }, n)
      | (none, n) =>
        match env.secondary with
        | .transport isAbort msg =>
          ({ st with error := some (weatherErrorMessage isAbort msg), loading := false },
           n + 1)
        | .response ok status payload =>
          if !ok then
            ({ st with error := some (weatherErrorMessage false
                 ("Weather response not OK: " ++ toString status)), loading := false },
             n + 1)
          else
            match mapSecondary payload with
            | .ok w => ({ weather := some w, error := none, loading := false }, n + 1)
            | .error msg =>
              ({ st with error := some (weatherErrorMessage false msg), loading := false },
               n + 1)

example :
    fetchWeather (some (.num 0)) (some (.num 10))
      { apiKey := some "k",
        secondary := .response true 200
          { current := some { temperature_2m := some 15 },
            daily := some { temperature_2m_max := some [18], temperature_2m_min := some [10] } } }
      ⟨none, none, true⟩ = (⟨none, none, true⟩, 0) := by decide

example :
    fetchWeather (some (.num 40)) (some (.num (-3)))
      { apiKey := none,
        secondary := .response true 200
          { current := some { temperature_2m := some 15, relative_humidity_2m := some 60,
                              uv_index := some 3, weather_code := some 1,
                              precipitation_probability := some 20 },
            daily := some { temperature_2m_max := some [18], temperature_2m_min := some [10] } } }
      ⟨none, none, true⟩
      = (⟨some ⟨some 15, some 10, some 18, some 60, some 3, some 1, some 20, some 1⟩,
          none, false⟩, 1) := by decide

/-- A reverse-geocoding attempt outcome the code retries after a back-off:
a non-success HTTP status or a transport failure that is not the timeout
abort. -/
def GeoAttempt.retriable : GeoAttempt → Prop
  | .httpError _ => True
  | .transport isAbort _ => isAbort = false
  | .success _ => False

instance (o : GeoAttempt) : Decidable o.retriable := by
  cases o <;> simp [GeoAttempt.retriable] <;> infer_instance

/-- Every numeric field of a primary `current` object that the mapping copies
unchecked is present (the `condition.code` field as well, when `condition`
exists). -/
def PrimaryCurrent.fieldsDefined (c : PrimaryCurrent) : Bool :=
  c.temp_c.isSome && c.humidity.isSome && c.uv.isSome &&
  (match c.condition with
   | some cond => cond.code.isSome
   | none => true)

/-- Every numeric field of a primary `day` object is present. -/
def PrimaryDay.fieldsDefined (d : PrimaryDay) : Bool :=
  d.mintemp_c.isSome && d.maxtemp_c.isSome && d.daily_chance_of_rain.isSome

/-- A primary payload whose objects, where present, carry every numeric field
the mapping reads. -/
def PrimaryPayload.fieldsDefined (p : PrimaryPayload) : Bool :=
  (match p.current with
   | some c => c.fieldsDefined
   | none => true) &&
  (match p.forecastday0 with
   | some f =>
     match f.day with
     | some d => d.fieldsDefined
     | none => true
   | none => true)

/-- A secondary payload whose objects, where present, carry every numeric
field the mapping reads, with non-empty daily temperature arrays. -/
def SecondaryPayload.fieldsDefined (p : SecondaryPayload) : Bool :=
  (match p.current with
   | some c =>
     c.temperature_2m.isSome && c.relative_humidity_2m.isSome &&
     c.uv_index.isSome && c.weather_code.isSome
   | none => true) &&
  (match p.daily with
   | some d =>
     (match d.temperature_2m_min with
      | some mins => !mins.isEmpty
      | none => true) &&
     (match d.temperature_2m_max with
      | some maxs => !maxs.isEmpty
      | none => true)
   | none => true)

/-- Both payloads a weather environment could deliver have their declared
fields defined. -/
def WEnv.fieldsDefined (env : WEnv) : Bool :=
  (match env.primary with
   | .response _ _ p => p.fieldsDefined
   | .transport _ _ => true) &&
  (match env.secondary with
   | .response _ _ p => p.fieldsDefined
   | .transport _ _ => true)

/-! ## Produced interfaces -/

/-- The keys of the object literal `useAppLocation` returns to the UI layer
(part_005:152-156 and 427: `return { location, error, loading };`). -/
def useAppLocationFields : List String := ["location", "error", "loading"]

/-- The keys of the object literal `useWeather` returns to the UI layer
(useWeather.ts:34-39 and 189: `return { weather, error, loading, retry };`). -/
def useWeatherFields : List String := ["weather", "error", "loading", "retry"]

/-! ## Claims -/

/-- **C1**: with `force = false`, a persisted cache entry `{timestamp, data}`
with `now - timestamp < 10` minutes makes `getLocation` return the cached
record unchanged with no geolocation attempt and no network request; hence a
second non-forced invocation within 10 minutes of a resolution that produced
the cache entry issues no further network activity and returns the identical
cached record. -/
theorem getLocation_cache_hit :
    (∀ ts d (now : Nat) env prev, now - ts < CACHE_LOCATION →
      getLocation false prev (some (.entry ts d)) now env
        = ⟨some d, none, false, some (.entry ts d), false, 0⟩) ∧
    (∀ force prev cache now env t0 d prev' (now' : Nat) env',
      (getLocation force prev cache now env).cache = some (.entry t0 d) →
      (getLocation force prev cache now env).location = some d →
      now' - t0 < CACHE_LOCATION →
      getLocation false prev' (getLocation force prev cache now env).cache now' env'
        = ⟨some d, none, false, some (.entry t0 d), false, 0⟩) := by
  constructor
  · intro ts d now env prev h
    simp [getLocation, h]
  · intro force prev cache now env t0 d prev' now' env' hc _ hlt
    rw [hc]
    simp [getLocation, hlt]

/-- Witness for C1 at concrete inputs: a cache entry written at time 0 is
returned unchanged at time 1000, both directly and after a first run that
produced it. -/
theorem getLocation_cache_hit_witness :
    getLocation false none (some (.entry 0 ⟨.num 40, .num (-3), "Madrid"⟩)) 1000
        { geo := .unsupported }
      = ⟨some ⟨.num 40, .num (-3), "Madrid"⟩, none, false,
         some (.entry 0 ⟨.num 40, .num (-3), "Madrid"⟩), false, 0⟩ ∧
    getLocation false none
        ((getLocation true none none 0
          { geo := .position (.num 40) (.num (-3)),
            geoOutcomes := [.success { city := some "Madrid" }] }).cache) 1000
        { geo := .unsupported }
      = ⟨some ⟨.num 40, .num (-3), "Madrid"⟩, none, false,
         some (.entry 0 ⟨.num 40, .num (-3), "Madrid"⟩), false, 0⟩ := by
  constructor
  · exact getLocation_cache_hit.1 0 ⟨.num 40, .num (-3), "Madrid"⟩ 1000
      { geo := .unsupported } none (by decide)
  · exact getLocation_cache_hit.2 true none none 0
      { geo := .position (.num 40) (.num (-3)),
        geoOutcomes := [.success { city := some "Madrid" }] }
      0 ⟨.num 40, .num (-3), "Madrid"⟩ none 1000 { geo := .unsupported }
      (by decide) (by decide) (by decide)

/-- **C10**: with `force = false`, a present cache cell that is not valid JSON
makes the run end in a user-visible error state (the parse error message),
with no geolocation attempt, no network request, and the corrupt cell left in
storage; consequently every subsequent non-forced invocation fails the same
way. -/
theorem getLocation_corrupt_cache (msg : String) (prev : Option LocationData)
    (now : Nat) (env : LocEnv) (prev' : Option LocationData) (now' : Nat) (env' : LocEnv) :
    getLocation false prev (some (.invalidJson msg)) now env
      = ⟨prev, some msg, false, some (.invalidJson msg), false, 0⟩ ∧
    getLocation false prev'
        ((getLocation false prev (some (.invalidJson msg)) now env).cache) now' env'
      = ⟨prev', some msg, false, some (.invalidJson msg), false, 0⟩ := by
  constructor <;> simp [getLocation]

/-- **C9, counterexample**: the claim says each resolver exposes a
`retry` member to the UI layer, but the object `useAppLocation` returns has
no `retry` key. -/
theorem useAppLocation_no_retry : "retry" ∉ useAppLocationFields := by decide

/-- **C9, amended**: `useWeather` exposes `{ weather (the data), error,
loading, retry }`; `useAppLocation` exposes only `{ location (the data),
error, loading }`, with no caller-triggered retry member (cache-bypassing
refresh is triggered only by the hook's internal periodic timer). -/
theorem resolver_interfaces :
    useWeatherFields = ["weather", "error", "loading", "retry"] ∧
    useAppLocationFields = ["location", "error", "loading"] ∧
    "retry" ∈ useWeatherFields ∧ "retry" ∉ useAppLocationFields := by
  refine ⟨rfl, rfl, by decide, by decide⟩

/-- **C2, counterexample**: the claim says a timeout-triggered abort is
followed by a wait and a retry like any other transport failure, but an abort
on attempt 1 makes `fetchLocationName` fail immediately with
`Reverse geocoding request timeout` — no wait, no second request — even
though the next two attempts would have succeeded. -/
theorem fetchLocationName_abort_not_retried :
    fetchLocationName (.num 40) (.num (-3))
      [.transport true "The operation was aborted.",
       .success { city := some "Madrid" }, .success { city := some "Madrid" }]
      = ⟨.error "Reverse geocoding request timeout", ⟨1, []⟩⟩ := by decide

/-- **C2, amended**: each failed reverse-geocoding attempt with a non-success
HTTP status or a non-abort transport failure is followed by a wait of
`attempt × 1s` and a retry, up to 3 attempts total, and only the final
attempt's failure propagates; failures of that kind on attempts 1 and 2
followed by success on attempt 3 yield a successful display name with no
visible error (trace: 3 requests, waits 1000 ms then 2000 ms).  A
timeout-triggered abort on a non-final attempt instead propagates
immediately as `Reverse geocoding request timeout`. -/
theorem fetchLocationName_retry :
    (∀ lat lon o1 o2 p, invalidCoords lat lon = false →
      o1.retriable → o2.retriable → finalParts (geoFragments p) ≠ [] →
      fetchLocationName lat lon [o1, o2, .success p]
        = ⟨.ok (String.intercalate ", " (finalParts (geoFragments p))),
           ⟨3, [1000, 2000]⟩⟩) ∧
    (∀ lat lon msg rest, invalidCoords lat lon = false →
      fetchLocationName lat lon (.transport true msg :: rest)
        = ⟨.error "Reverse geocoding request timeout", ⟨1, []⟩⟩) := by
  constructor
  · intro lat lon o1 o2 p hv h1 h2 hp
    have step : ∀ (attempt : Nat) (o : GeoAttempt) rest fetches waits,
        o.retriable → attempt ≠ MAX_RETRIES →
        geoLoop attempt (o :: rest) fetches waits
          = geoLoop (attempt + 1) rest (fetches + 1) (waits ++ [RETRY_DELAY * attempt]) := by
      intro attempt o rest fetches waits ho ha
      cases o with
      | httpError s => simp [geoLoop, ha]
      | transport isAbort m =>
        simp only [GeoAttempt.retriable] at ho
        subst ho
        simp [geoLoop, ha]
      | success _ => exact absurd ho (by simp [GeoAttempt.retriable])
    simp only [fetchLocationName, hv, Bool.false_eq_true, if_false]
    rw [step 1 o1 _ 0 [] h1 (by decide), step 2 o2 _ 1 _ h2 (by decide)]
    simp [geoLoop, hp, MAX_RETRIES, RETRY_DELAY]
  · intro lat lon msg rest hv
    simp [fetchLocationName, hv, geoLoop, MAX_RETRIES]

/-- Witness for C2's amended theorem at concrete inputs: HTTP 500 then a
transport failure then a success yield `Madrid` with waits 1000 ms and
2000 ms; an abort on attempt 1 fails immediately. -/
theorem fetchLocationName_retry_witness :
    (fetchLocationName (.num 40) (.num (-3))
        [.httpError 500, .transport false "network down",
         .success { city := some "Madrid" }]
      = ⟨.ok (String.intercalate ", "
            (finalParts (geoFragments { city := some "Madrid" }))),
         ⟨3, [1000, 2000]⟩⟩) ∧
    String.intercalate ", " (finalParts (geoFragments { city := some "Madrid" }))
      = "Madrid" ∧
    fetchLocationName (.num 40) (.num (-3)) [.transport true "aborted"]
      = ⟨.error "Reverse geocoding request timeout", ⟨1, []⟩⟩ := by
  refine ⟨?_, by decide, ?_⟩
  · exact fetchLocationName_retry.1 (.num 40) (.num (-3)) (.httpError 500)
      (.transport false "network down") { city := some "Madrid" }
      (by decide) (by decide) (by decide) (by decide)
  · exact fetchLocationName_retry.2 (.num 40) (.num (-3)) "aborted" [] (by decide)

/-- **C4, counterexample**: the claim says a coordinate with a non-finite
component makes the Weather Resolver fail with an invalid-coordinate error;
but with `latitude = NaN` (falsy) the resolver returns early before the
validation: the state is untouched — no error is surfaced — and no request
is issued. -/
theorem fetchWeather_nan_no_error :
    fetchWeather (some .nan) (some (.num 10))
      { apiKey := none,
        secondary := .response true 200
          { current := some { temperature_2m := some 15 },
            daily := some { temperature_2m_max := some [18],
                            temperature_2m_min := some [10] } } }
      ⟨none, none, true⟩
      = (⟨none, none, true⟩, 0) := by decide

/-- **C4, amended**: for every coordinate with `|lat| > 90`, `|lon| > 180` or
a non-finite component, the reverse-geocoding step fails with
`Invalid coordinates for reverse geocoding` before issuing any network call;
the Weather Resolver fails with `Temp. N/A: Invalid coordinates` before any
network call whenever such a coordinate passes its truthiness guard
(out-of-range or infinite components), while a `NaN` component is falsy and
instead causes a silent early return — still with no network call. -/
theorem invalid_coords_reject :
    (∀ lat lon outcomes, invalidCoords lat lon = true →
      fetchLocationName lat lon outcomes
        = ⟨.error "Invalid coordinates for reverse geocoding", ⟨0, []⟩⟩) ∧
    (∀ lat lon env st, optNumTruthy lat = true → optNumTruthy lon = true →
      invalidCoords (lat.getD .nan) (lon.getD .nan) = true →
      fetchWeather lat lon env st
        = ({ st with error := some "Temp. N/A: Invalid coordinates", loading := false }, 0)) ∧
    (∀ lat lon env st, (optNumTruthy lat && optNumTruthy lon) = false →
      fetchWeather lat lon env st = (st, 0)) := by
  refine ⟨?_, ?_, ?_⟩
  · intro lat lon outcomes h
    simp [fetchLocationName, h]
  · intro lat lon env st hlat hlon hv
    simp [fetchWeather, hlat, hlon, hv, weatherErrorMessage]
  · intro lat lon env st h
    simp [fetchWeather, h]

/-- Witness for C4's amended theorem at concrete inputs: latitude 91 is
rejected by both resolvers before any request, and latitude `NaN` makes the
Weather Resolver no-op. -/
theorem invalid_coords_reject_witness :
    fetchLocationName (.num 91) (.num 10) [.success { city := some "Madrid" }]
      = ⟨.error "Invalid coordinates for reverse geocoding", ⟨0, []⟩⟩ ∧
    fetchWeather (some (.num 91)) (some (.num 10)) { apiKey := none } ⟨none, none, true⟩
      = (⟨none, some "Temp. N/A: Invalid coordinates", false⟩, 0) ∧
    fetchWeather (some .nan) (some (.num 10)) { apiKey := none } ⟨none, none, true⟩
      = (⟨none, none, true⟩, 0) := by
  refine ⟨?_, ?_, ?_⟩
  · exact invalid_coords_reject.1 (.num 91) (.num 10)
      [.success { city := some "Madrid" }] (by decide)
  · exact invalid_coords_reject.2.1 (some (.num 91)) (some (.num 10))
      { apiKey := none } ⟨none, none, true⟩ (by decide) (by decide) (by decide)
  · exact invalid_coords_reject.2.2 (some .nan) (some (.num 10))
      { apiKey := none } ⟨none, none, true⟩ (by decide)

/-- **C8, counterexample**: the claim says the Weather Resolver proceeds to
validation and a provider request for every non-null coordinate, including
latitude 0; but latitude 0 is falsy, so the run is a silent no-op — state
untouched, no request — even though the secondary provider would have
answered. -/
theorem fetchWeather_zero_lat_noop :
    fetchWeather (some (.num 0)) (some (.num 10))
      { apiKey := none,
        secondary := .response true 200
          { current := some { temperature_2m := some 15, relative_humidity_2m := some 60,
                              uv_index := some 3, weather_code := some 1,
                              precipitation_probability := some 20 },
            daily := some { temperature_2m_max := some [18],
                            temperature_2m_min := some [10] } } }
      ⟨none, none, true⟩
      = (⟨none, none, true⟩, 0) := by decide

/-- A primary phase that produced a record issued exactly one request. -/
lemma primaryPhase_some_fetches {env : WEnv} {w : WeatherData} {n : Nat}
    (h : primaryPhase env = (some w, n)) : n = 1 := by
  unfold primaryPhase at h
  rcases hk : env.apiKey with _ | key <;> rw [hk] at h
  · simp at h
  · by_cases hl : 0 < key.length
    · simp only [hl, if_true] at h
      rcases hpr : env.primary with ⟨a, m⟩ | ⟨ok, s, p⟩ <;> rw [hpr] at h
      · simp at h
      · rw [Prod.mk.injEq] at h
        exact h.2.symm
    · simp [hl] at h

/-- **C8, amended**: the Weather Resolver no-ops (returns early, issues no
request, surfaces no error) exactly while either supplied coordinate is
absent or falsy (`0` or `NaN` as well as `null`/`undefined`); for every
truthy coordinate pair it proceeds to coordinate validation — an invalid pair
fails with no request, and a valid pair issues at least one provider
request. -/
theorem fetchWeather_noop_guard :
    (∀ lat lon env st, (optNumTruthy lat && optNumTruthy lon) = false →
      fetchWeather lat lon env st = (st, 0)) ∧
    (∀ lat lon env st, (optNumTruthy lat && optNumTruthy lon) = true →
      invalidCoords (lat.getD .nan) (lon.getD .nan) = true →
      fetchWeather lat lon env st
        = ({ st with error := some "Temp. N/A: Invalid coordinates", loading := false }, 0)) ∧
    (∀ lat lon env st, (optNumTruthy lat && optNumTruthy lon) = true →
      invalidCoords (lat.getD .nan) (lon.getD .nan) = false →
      1 ≤ (fetchWeather lat lon env st).2) := by
  refine ⟨?_, ?_, ?_⟩
  · intro lat lon env st h
    simp [fetchWeather, h]
  · intro lat lon env st h hv
    simp [fetchWeather, h, hv, weatherErrorMessage]
  · intro lat lon env st h hv
    simp only [fetchWeather, h, hv, Bool.not_true, Bool.false_eq_true, if_false]
    rcases hp : primaryPhase env with ⟨w, n⟩
    cases w with
    | some w =>
      have := primaryPhase_some_fetches hp
      simp [this]
    | none =>
      cases env.secondary with
      | transport a m => simp
      | response ok status payload =>
        by_cases hok : ok
        · cases hmap : mapSecondary payload <;> simp [hok, hmap]
        · simp [hok]

/-- Witness for C8's amended theorem at concrete inputs: longitude 0 no-ops;
latitude 100 (truthy, out of range) fails validation with no request; Madrid
coordinates issue a request. -/
theorem fetchWeather_noop_guard_witness :
    fetchWeather (some (.num 40)) (some (.num 0)) { apiKey := none } ⟨none, none, true⟩
      = (⟨none, none, true⟩, 0) ∧
    fetchWeather (some (.num 100)) (some (.num 10)) { apiKey := none } ⟨none, none, true⟩
      = (⟨none, some "Temp. N/A: Invalid coordinates", false⟩, 0) ∧
    1 ≤ (fetchWeather (some (.num 40)) (some (.num (-3))) { apiKey := none }
          ⟨none, none, true⟩).2 := by
  refine ⟨?_, ?_, ?_⟩
  · exact fetchWeather_noop_guard.1 (some (.num 40)) (some (.num 0))
      { apiKey := none } ⟨none, none, true⟩ (by decide)
  · exact fetchWeather_noop_guard.2.1 (some (.num 100)) (some (.num 10))
      { apiKey := none } ⟨none, none, true⟩ (by decide) (by decide)
  · exact fetchWeather_noop_guard.2.2 (some (.num 40)) (some (.num (-3)))
      { apiKey := none } ⟨none, none, true⟩ (by decide) (by decide)

/-- A primary phase under any of the failure conditions of C3 (missing or
empty credential, transport failure or timeout, non-OK status, payload that
does not map to a record) produces no record. -/
lemma primaryPhase_fails {env : WEnv}
    (h : env.apiKey = none ∨ env.apiKey = some "" ∨
      (∃ a m, env.primary = .transport a m) ∨
      (∃ s p, env.primary = .response false s p) ∨
      (∃ s p, env.primary = .response true s p ∧ mapPrimary p = none)) :
    (primaryPhase env).1 = none := by
  unfold primaryPhase
  rcases h with h | h | ⟨a, m, h⟩ | ⟨s, p, h⟩ | ⟨s, p, h, hm⟩
  · rw [h]
  · rw [h]; simp
  · rcases hk : env.apiKey with _ | key
    · rfl
    · rw [h]
      by_cases hl : 0 < key.length <;> simp [hl]
  · rcases hk : env.apiKey with _ | key
    · rfl
    · rw [h]
      by_cases hl : 0 < key.length <;> simp [hl]
  · rcases hk : env.apiKey with _ | key
    · rfl
    · rw [h]
      by_cases hl : 0 < key.length <;> simp [hl, hm]

/-- **C3**: whenever the primary weather provider does not yield a well-formed
success (missing/empty credential, transport failure or timeout, non-OK
status, or a payload that does not map to a record) and the secondary
provider responds OK with a well-formed payload, `fetchWeather` stores a
record whose `airQuality` is 1 and whose every other field is taken from the
secondary payload, with no error. -/
theorem fetchWeather_secondary_fallback
    (lat lon : Option JsNum) (env : WEnv) (st : WState)
    (hguard : (optNumTruthy lat && optNumTruthy lon) = true)
    (hv : invalidCoords (lat.getD .nan) (lon.getD .nan) = false)
    (hprim : env.apiKey = none ∨ env.apiKey = some "" ∨
      (∃ a m, env.primary = .transport a m) ∨
      (∃ s p, env.primary = .response false s p) ∨
      (∃ s p, env.primary = .response true s p ∧ mapPrimary p = none))
    (status : Nat) (payload : SecondaryPayload)
    (hsec : env.secondary = .response true status payload)
    (current : SecondaryCurrent) (daily : SecondaryDaily) (mins maxs : List ℚ)
    (hc : payload.current = some current) (hd : payload.daily = some daily)
    (hmin : daily.temperature_2m_min = some mins)
    (hmax : daily.temperature_2m_max = some maxs) :
    (fetchWeather lat lon env st).1
      = { weather := some
            { temperature := current.temperature_2m
              minTemperature := mins.get? 0
              maxTemperature := maxs.get? 0
              humidity := current.relative_humidity_2m
              uvIndex := current.uv_index
              weatherCode := current.weather_code
              rainProbability := some (jsOrQ current.precipitation_probability 0)
              airQuality := some 1 }
          error := none
          loading := false } := by
  have hnone := primaryPhase_fails hprim
  have hms : mapSecondary payload
      = .ok { temperature := current.temperature_2m
              minTemperature := mins.get? 0
              maxTemperature := maxs.get? 0
              humidity := current.relative_humidity_2m
              uvIndex := current.uv_index
              weatherCode := current.weather_code
              rainProbability := some (jsOrQ current.precipitation_probability 0)
              airQuality := some 1 } := by
    simp only [mapSecondary, hc, hd, hmin, hmax]
  simp only [fetchWeather, hguard, hv, Bool.not_true, Bool.false_eq_true, if_false]
  rcases hp : primaryPhase env with ⟨w, n⟩
  rw [hp] at hnone
  simp only at hnone
  subst hnone
  rw [hsec]
  simp only [Bool.not_true, Bool.false_eq_true, if_false, hms]

/-- Witness for C3 at concrete inputs: no credential configured, the
secondary provider answers with the Madrid payload, and the stored record is
`{15, 10, 18, 60, 3, 1, 20, airQuality 1}`. -/
theorem fetchWeather_secondary_fallback_witness :
    (fetchWeather (some (.num 40)) (some (.num (-3)))
        { apiKey := none,
          secondary := .response true 200
            { current := some { temperature_2m := some 15, relative_humidity_2m := some 60,
                                uv_index := some 3, weather_code := some 1,
                                precipitation_probability := some 20 },
              daily := some { temperature_2m_max := some [18],
                              temperature_2m_min := some [10] } } }
        ⟨none, none, true⟩).1
      = { weather := some ⟨some 15, some 10, some 18, some 60, some 3, some 1,
                           some 20, some 1⟩,
          error := none, loading := false } := by
  have h := fetchWeather_secondary_fallback (some (.num 40)) (some (.num (-3)))
    { apiKey := none,
      secondary := .response true 200
        { current := some { temperature_2m := some 15, relative_humidity_2m := some 60,
                            uv_index := some 3, weather_code := some 1,
                            precipitation_probability := some 20 },
          daily := some { temperature_2m_max := some [18],
                          temperature_2m_min := some [10] } } }
    ⟨none, none, true⟩ (by decide) (by decide) (Or.inl rfl) 200 _ rfl _ _ [10] [18]
    rfl rfl rfl rfl
  exact h

/-- **C5, counterexample**: a primary payload that passes the code's shape
check (`current` and `forecast.forecastday[0]` present) but lacks `temp_c`
is stored via `setWeather` as a record whose `temperature` is undefined — a
partial record reaches consumers. -/
theorem fetchWeather_partial_record :
    (fetchWeather (some (.num 40)) (some (.num (-3)))
        { apiKey := some "k",
          primary := .response true 200
            { current := some { temp_c := none, humidity := some 60, uv := some 3,
                                condition := some { code := some 1 },
                                air_quality := none },
              forecastday0 := some { day := some { mintemp_c := some 10,
                                                   maxtemp_c := some 18,
                                                   daily_chance_of_rain := some 20 } } } }
        ⟨none, none, true⟩).1.weather
      = some ⟨none, some 10, some 18, some 60, some 3, some 1, some 20, some 1⟩ ∧
    ¬ WeatherData.fullyPopulated
        ⟨none, some 10, some 18, some 60, some 3, some 1, some 20, some 1⟩ := by
  constructor <;> decide

/-- A primary phase that produced a record did so from an OK response whose
payload maps to that record. -/
lemma primaryPhase_some_payload {env : WEnv} {w : WeatherData} {n : Nat}
    (h : primaryPhase env = (some w, n)) :
    ∃ ok s p, env.primary = .response ok s p ∧ mapPrimary p = some w := by
  unfold primaryPhase at h
  rcases hk : env.apiKey with _ | key <;> rw [hk] at h
  · simp at h
  · by_cases hl : 0 < key.length
    · simp only [hl, if_true] at h
      rcases hpr : env.primary with ⟨a, m⟩ | ⟨ok, s, p⟩ <;> rw [hpr] at h
      · simp at h
      · rw [Prod.mk.injEq] at h
        refine ⟨ok, s, p, rfl, ?_⟩
        by_cases hok : ok = true
        · rw [hok] at h
          simpa using h.1
        · simp only [Bool.not_eq_true] at hok
          rw [hok] at h
          simp at h
    · simp [hl] at h

/-- **C5, amended**: provided every payload the providers deliver carries the
numeric fields the mapping reads (non-empty daily arrays included), every
record `fetchWeather` newly stores is fully populated — all eight fields
defined — so consumers see a full record or the previous value; a payload
that passes only the shallow `current`/`forecastday[0]` (resp.
`current`/`daily`) presence check can however produce a partial record. -/
theorem fetchWeather_full_records :
    (∀ p w, p.fieldsDefined = true → mapPrimary p = some w → w.fullyPopulated) ∧
    (∀ p w, p.fieldsDefined = true → mapSecondary p = .ok w → w.fullyPopulated) ∧
    (∀ lat lon env st w, env.fieldsDefined = true →
      (fetchWeather lat lon env st).1.weather = some w →
      st.weather = some w ∨ w.fullyPopulated) := by
  have hprimary : ∀ (p : PrimaryPayload) w, p.fieldsDefined = true →
      mapPrimary p = some w → w.fullyPopulated := by
    intro p w hdef hmap
    rcases hc : p.current with _ | current <;>
      rcases hf : p.forecastday0 with _ | forecast <;>
      simp [mapPrimary, hc, hf] at hmap
    rcases hcond : current.condition with _ | condition <;>
      rcases hday : forecast.day with _ | day <;>
      simp [hcond, hday] at hmap
    subst hmap
    simp only [PrimaryPayload.fieldsDefined, PrimaryCurrent.fieldsDefined,
      PrimaryDay.fieldsDefined, hc, hf, hcond, hday, Bool.and_eq_true] at hdef
    simp_all [WeatherData.fullyPopulated]
  have hsecondary : ∀ (p : SecondaryPayload) w, p.fieldsDefined = true →
      mapSecondary p = .ok w → w.fullyPopulated := by
    intro p w hdef hmap
    rcases hc : p.current with _ | current <;>
      rcases hd : p.daily with _ | daily <;>
      simp [mapSecondary, hc, hd] at hmap
    rcases hmin : daily.temperature_2m_min with _ | mins <;>
      rcases hmax : daily.temperature_2m_max with _ | maxs <;>
      simp [hmin, hmax] at hmap
    subst hmap
    simp only [SecondaryPayload.fieldsDefined, hc, hd, hmin, hmax,
      Bool.and_eq_true] at hdef
    rcases mins with _ | ⟨m0, mrest⟩
    · exact absurd hdef.2.1 (by simp)
    rcases maxs with _ | ⟨x0, xrest⟩
    · exact absurd hdef.2.2 (by simp)
    simp_all [WeatherData.fullyPopulated]
  refine ⟨hprimary, hsecondary, ?_⟩
  intro lat lon env st w hdef hw
  unfold WEnv.fieldsDefined at hdef
  simp only [Bool.and_eq_true] at hdef
  unfold fetchWeather at hw
  by_cases hguard : (optNumTruthy lat && optNumTruthy lon) = true
  case neg =>
    simp only [Bool.not_eq_true] at hguard
    rw [hguard] at hw
    simp only [Bool.not_false, if_true] at hw
    exact Or.inl hw
  rw [hguard] at hw
  simp only [Bool.not_true, Bool.false_eq_true, if_false] at hw
  by_cases hv : invalidCoords (lat.getD .nan) (lon.getD .nan) = true
  · rw [hv] at hw
    simp only [if_true] at hw
    exact Or.inl hw
  · simp only [Bool.not_eq_true] at hv
    rw [hv] at hw
    simp only [Bool.false_eq_true, if_false] at hw
    rcases hp : primaryPhase env with ⟨pw, n⟩
    rw [hp] at hw
    cases pw with
    | some pw =>
      simp only [Option.some.injEq] at hw
      obtain ⟨ok, s, p, hpr, hmap⟩ := primaryPhase_some_payload hp
      rw [hpr] at hdef
      rw [hw] at hmap
      exact Or.inr (hprimary p w hdef.1 hmap)
    | none =>
      rcases hsec : env.secondary with ⟨a, m⟩ | ⟨ok, s, p⟩ <;> rw [hsec] at hw
      · exact Or.inl hw
      · rw [hsec] at hdef
        by_cases hok : ok = true
        · rw [hok] at hw
          simp only [Bool.not_true, Bool.false_eq_true, if_false] at hw
          rcases hmap : mapSecondary p with e | w' <;> rw [hmap] at hw
          · exact Or.inl hw
          · simp only [Option.some.injEq] at hw
            rw [hw] at hmap
            exact Or.inr (hsecondary p w hdef.2 hmap)
        · simp only [Bool.not_eq_true] at hok
          rw [hok] at hw
          simp only [Bool.not_false, if_true] at hw
          exact Or.inl hw

/-- Witness for C5's amended theorem at concrete inputs: a fully-defined
primary payload maps to a fully populated record, and a run against a
fully-defined secondary payload stores a fully populated record. -/
theorem fetchWeather_full_records_witness :
    WeatherData.fullyPopulated
      ⟨some 15, some 10, some 18, some 60, some 3, some 1, some 20, some 1⟩ ∧
    (none = some (⟨some 15, some 10, some 18, some 60, some 3, some 1, some 20, some 1⟩
        : WeatherData) ∨
      WeatherData.fullyPopulated
        ⟨some 15, some 10, some 18, some 60, some 3, some 1, some 20, some 1⟩) := by
  constructor
  · exact fetchWeather_full_records.1
      { current := some { temp_c := some 15, humidity := some 60, uv := some 3,
                          condition := some { code := some 1 },
                          air_quality := none },
        forecastday0 := some { day := some { mintemp_c := some 10, maxtemp_c := some 18,
                                             daily_chance_of_rain := some 20 } } }
      ⟨some 15, some 10, some 18, some 60, some 3, some 1, some 20, some 1⟩
      (by decide) (by decide)
  · exact fetchWeather_full_records.2.2 (some (.num 40)) (some (.num (-3)))
      { apiKey := none,
        secondary := .response true 200
          { current := some { temperature_2m := some 15, relative_humidity_2m := some 60,
                              uv_index := some 3, weather_code := some 1,
                              precipitation_probability := some 20 },
            daily := some { temperature_2m_max := some [18],
                            temperature_2m_min := some [10] } } }
      ⟨none, none, true⟩
      ⟨some 15, some 10, some 18, some 60, some 3, some 1, some 20, some 1⟩
      (by decide) (by decide)

/-- A present value has a non-negative `jsIndexOf`. -/
lemma jsIndexOf_nonneg (v : Option String) :
    ∀ l : List (Option String), v ∈ l → 0 ≤ jsIndexOf l v := by
  intro l
  induction l with
  | nil => intro h; cases h
  | cons a l ih =>
    intro hmem
    by_cases hav : a = v
    · simp [jsIndexOf, hav]
    · have hv : v ∈ l := by
        rcases List.mem_cons.1 hmem with h | h
        · exact absurd h.symm hav
        · exact h
      have h0 := ih hv
      have hne : ¬ jsIndexOf l v = -1 := by omega
      simp only [jsIndexOf, if_neg hav, if_neg hne]
      omega

/-- `jsIndexOf` finds `v` exactly at the junction of `pre ++ v :: t` iff `v`
does not occur in `pre`. -/
lemma jsIndexOf_append_cons (v : Option String) :
    ∀ (pre t : List (Option String)),
      (jsIndexOf (pre ++ v :: t) v = (pre.length : Int)) ↔ v ∉ pre := by
  intro pre
  induction pre with
  | nil =>
    intro t
    simp [jsIndexOf]
  | cons a pre ih =>
    intro t
    rw [List.cons_append]
    by_cases hav : a = v
    · subst hav
      refine iff_of_false ?_ (by simp)
      simp only [jsIndexOf, if_pos rfl, List.length_cons]
      intro h
      have h' : (0 : Int) = ((pre.length + 1 : Nat) : Int) := h
      omega
    · have hmem : v ∈ pre ++ v :: t := by simp
      have h0 := jsIndexOf_nonneg v (pre ++ v :: t) hmem
      have hne : ¬ jsIndexOf (pre ++ v :: t) v = -1 := by omega
      have hstep : jsIndexOf (a :: (pre ++ v :: t)) v
          = jsIndexOf (pre ++ v :: t) v + 1 := by
        simp only [jsIndexOf, if_neg hav, if_neg hne]
      rw [hstep, List.length_cons]
      have hiff := ih t
      constructor
      · intro h
        have hlen : jsIndexOf (pre ++ v :: t) v = (pre.length : Int) := by
          push_cast at h ⊢
          omega
        have hnp := hiff.mp hlen
        intro hc
        rcases List.mem_cons.1 hc with h' | h'
        · exact hav h'.symm
        · exact hnp h'
      · intro h
        have hnp : v ∉ pre := fun hh => h (List.mem_cons_of_mem _ hh)
        have := hiff.mpr hnp
        push_cast
        omega

/-- Unfolding `dedupKeepFirst` at a cons cell. -/
lemma dedupKeepFirst_cons (x : String) (xs : List String) :
    dedupKeepFirst (x :: xs) = x :: dedupKeepFirst (xs.filter (fun y => y ≠ x)) := by
  rw [dedupKeepFirst]

/-- The source's index-based first-occurrence filter, walking the suffix `t`
of `pre ++ t`, agrees with the accumulator form, for any `seen` that records
exactly the truthy values occurring in `pre`. -/
lemma finalPartsAux_eq_goSeen :
    ∀ (t pre : List (Option String)) (seen : List String),
      (∀ v : String, v ≠ "" → (v ∈ seen ↔ some v ∈ pre)) →
      finalPartsAux (pre ++ t) pre.length t = goSeen seen t := by
  intro t
  induction t with
  | nil => intro pre seen hinv; rfl
  | cons hd t ih =>
    intro pre seen hinv
    cases hd with
    | none =>
      have hL : finalPartsAux (pre ++ none :: t) pre.length (none :: t)
          = finalPartsAux (pre ++ none :: t) (pre.length + 1) t := by
        simp [finalPartsAux]
      have hR : goSeen seen (none :: t) = goSeen seen t := by simp [goSeen]
      rw [hL, hR, show pre ++ none :: t = (pre ++ [none]) ++ t by simp,
          show pre.length + 1 = (pre ++ [none]).length by simp]
      exact ih _ seen (fun v hv => by rw [hinv v hv]; simp)
    | some s =>
      by_cases hs : s = ""
      · subst hs
        have hL : finalPartsAux (pre ++ some "" :: t) pre.length (some "" :: t)
            = finalPartsAux (pre ++ some "" :: t) (pre.length + 1) t := by
          simp [finalPartsAux]
        have hR : goSeen seen (some "" :: t) = goSeen seen t := by
          simp [goSeen]
        rw [hL, hR, show pre ++ some "" :: t = (pre ++ [some ""]) ++ t by simp,
            show pre.length + 1 = (pre ++ [some ""]).length by simp]
        exact ih _ seen (fun v hv => by rw [hinv v hv]; simp [hv])
      · by_cases hmem : s ∈ seen
        · have hpre : some s ∈ pre := (hinv s hs).1 hmem
          have hidx : ¬ jsIndexOf (pre ++ some s :: t) (some s) = (pre.length : Int) :=
            fun h => ((jsIndexOf_append_cons (some s) pre t).1 h) hpre
          have hL : finalPartsAux (pre ++ some s :: t) pre.length (some s :: t)
              = finalPartsAux (pre ++ some s :: t) (pre.length + 1) t := by
            simp only [finalPartsAux]
            rw [if_neg (fun h => hidx h.2)]
          have hR : goSeen seen (some s :: t) = goSeen seen t := by
            simp only [goSeen]
            rw [if_pos (Or.inr hmem)]
          rw [hL, hR, show pre ++ some s :: t = (pre ++ [some s]) ++ t by simp,
              show pre.length + 1 = (pre ++ [some s]).length by simp]
          refine ih _ seen ?_
          intro v hv
          rw [hinv v hv]
          constructor
          · intro h
            exact List.mem_append_left _ h
          · intro h
            rcases List.mem_append.1 h with h' | h'
            · exact h'
            · simp only [List.mem_singleton, Option.some.injEq] at h'
              subst h'
              exact hpre
        · have hnpre : some s ∉ pre := fun h => hmem ((hinv s hs).2 h)
          have hidx : jsIndexOf (pre ++ some s :: t) (some s) = (pre.length : Int) :=
            (jsIndexOf_append_cons (some s) pre t).2 hnpre
          have hL : finalPartsAux (pre ++ some s :: t) pre.length (some s :: t)
              = s :: finalPartsAux (pre ++ some s :: t) (pre.length + 1) t := by
            simp only [finalPartsAux]
            rw [if_pos ⟨hs, hidx⟩]
          have hR : goSeen seen (some s :: t) = s :: goSeen (s :: seen) t := by
            simp only [goSeen]
            rw [if_neg (fun h => h.elim hs hmem)]
          rw [hL, hR, show pre ++ some s :: t = (pre ++ [some s]) ++ t by simp,
              show pre.length + 1 = (pre ++ [some s]).length by simp]
          congr 1
          refine ih _ (s :: seen) ?_
          intro v hv
          by_cases hvs : v = s
          · subst hvs
            exact iff_of_true (List.mem_cons_self _ _) (by simp)
          · constructor
            · intro h
              rcases List.mem_cons.1 h with h' | h'
              · exact absurd h' hvs
              · exact List.mem_append_left _ ((hinv v hv).1 h')
            · intro h
              rcases List.mem_append.1 h with h' | h'
              · exact List.mem_cons_of_mem _ ((hinv v hv).2 h')
              · simp only [List.mem_singleton, Option.some.injEq] at h'
                exact absurd h' hvs

/-- The accumulator form computes first-occurrence deduplication of the
present values not yet seen, for lists with no empty-string slot. -/
lemma goSeen_eq_dedup :
    ∀ (t : List (Option String)) (seen : List String),
      (∀ s : String, some s ∈ t → s ≠ "") →
      goSeen seen t
        = dedupKeepFirst ((t.filterMap id).filter (fun x => x ∉ seen)) := by
  intro t
  induction t with
  | nil =>
    intro seen h
    simp [goSeen, dedupKeepFirst]
  | cons hd t ih =>
    intro seen hno
    cases hd with
    | none =>
      have hfm : List.filterMap id (none :: t) = List.filterMap id t := rfl
      have hg : goSeen seen (none :: t) = goSeen seen t := by simp [goSeen]
      rw [hfm, hg]
      exact ih seen (fun s hs => hno s (List.mem_cons_of_mem _ hs))
    | some v =>
      have hv : v ≠ "" := hno v (List.mem_cons_self _ _)
      have hno' : ∀ s : String, some s ∈ t → s ≠ "" :=
        fun s hs => hno s (List.mem_cons_of_mem _ hs)
      have hfm : List.filterMap id (some v :: t) = v :: List.filterMap id t := rfl
      rw [hfm]
      by_cases hmem : v ∈ seen
      · have hg : goSeen seen (some v :: t) = goSeen seen t := by
          simp only [goSeen]
          rw [if_pos (Or.inr hmem)]
        have hfilter : List.filter (fun x => x ∉ seen) (v :: List.filterMap id t)
            = List.filter (fun x => x ∉ seen) (List.filterMap id t) := by
          rw [List.filter_cons]
          simp [hmem]
        rw [hg, hfilter]
        exact ih seen hno'
      · have hg : goSeen seen (some v :: t) = v :: goSeen (v :: seen) t := by
          simp only [goSeen]
          rw [if_neg (fun h => h.elim hv hmem)]
        have hfilter : List.filter (fun x => x ∉ seen) (v :: List.filterMap id t)
            = v :: List.filter (fun x => x ∉ seen) (List.filterMap id t) := by
          rw [List.filter_cons]
          simp [hmem]
        rw [hg, hfilter, dedupKeepFirst_cons]
        congr 1
        rw [ih (v :: seen) hno', List.filter_filter]
        congr 1
        apply List.filter_congr
        intro x hx
        by_cases h1 : x = v <;> by_cases h2 : x ∈ seen <;> simp [h1, h2]

/-- `strTruthy` never yields an empty string. -/
lemma strTruthy_ne_empty {o : Option String} {s : String}
    (h : strTruthy o = some s) : s ≠ "" := by
  cases o with
  | none => exact absurd h (by simp [strTruthy])
  | some v =>
    have h' : (if v = "" then none else some v) = some s := h
    by_cases hv : v = ""
    · rw [if_pos hv] at h'
      exact absurd h' (by simp)
    · rw [if_neg hv] at h'
      simp only [Option.some.injEq] at h'
      rw [← h']
      exact hv

/-- No slot of a fragment array carries an empty string. -/
lemma geoFragments_no_empty (p : GeoPayload) :
    ∀ s : String, some s ∈ geoFragments p → s ≠ "" := by
  intro s hs
  simp only [geoFragments, List.mem_cons, List.mem_singleton, List.not_mem_nil,
    or_false] at hs
  rcases hs with h | h | h | h | h <;> exact strTruthy_ne_empty h.symm

/-- **C6**: for every reverse-geocoding response, the display name is the
comma-join of the fragments street, locality, city, principalSubdivision,
countryName in that fixed order, deduplicated by value while preserving
first-occurrence order: the code's index-based filter equals
`dedupKeepFirst` of the present fragments, and a successful single-attempt
resolution returns exactly that join. -/
theorem displayName_dedup_join :
    (∀ p : GeoPayload, finalParts (geoFragments p) = dedupKeepFirst (presentFragments p)) ∧
    (∀ (lat lon : JsNum) (p : GeoPayload), invalidCoords lat lon = false →
      dedupKeepFirst (presentFragments p) ≠ [] →
      fetchLocationName lat lon [.success p]
        = ⟨.ok (String.intercalate ", " (dedupKeepFirst (presentFragments p))),
           ⟨1, []⟩⟩) := by
  have hbridge : ∀ p : GeoPayload,
      finalParts (geoFragments p) = dedupKeepFirst (presentFragments p) := by
    intro p
    have h1 : finalParts (geoFragments p) = goSeen [] (geoFragments p) := by
      have := finalPartsAux_eq_goSeen (geoFragments p) [] []
        (by intro v hv; simp)
      simpa [finalParts] using this
    have h2 : goSeen [] (geoFragments p)
        = dedupKeepFirst (((geoFragments p).filterMap id).filter (fun x => x ∉ ([] : List String))) :=
      goSeen_eq_dedup (geoFragments p) [] (geoFragments_no_empty p)
    rw [h1, h2, presentFragments]
    congr 1
    apply List.filter_eq_self.2
    intro a _
    simp
  refine ⟨hbridge, ?_⟩
  intro lat lon p hv hne
  have hfp : finalParts (geoFragments p) ≠ [] := by
    rw [hbridge p]; exact hne
  simp only [fetchLocationName, hv, Bool.false_eq_true, if_false, geoLoop,
    MAX_RETRIES]
  rw [if_pos hfp, hbridge p]

/-- Witness for C6 at the spec's concrete scenario: the response
`{locality: Centro, city: Madrid, countryName: Spain}` with no street and no
subdivision yields exactly `Centro, Madrid, Spain`. -/
theorem displayName_dedup_join_witness :
    fetchLocationName (.num 40) (.num (-3))
        [.success { locality := some "Centro", city := some "Madrid",
                    countryName := some "Spain" }]
      = ⟨.ok (String.intercalate ", "
            (dedupKeepFirst (presentFragments
              { locality := some "Centro", city := some "Madrid",
                countryName := some "Spain" }))), ⟨1, []⟩⟩ ∧
    String.intercalate ", "
        (dedupKeepFirst (presentFragments
          { locality := some "Centro", city := some "Madrid",
            countryName := some "Spain" }))
      = "Centro, Madrid, Spain" := by
  constructor
  · exact displayName_dedup_join.2 (.num 40) (.num (-3))
      { locality := some "Centro", city := some "Madrid", countryName := some "Spain" }
      (by decide)
      (by rw [← displayName_dedup_join.1]; decide)
  · rw [← displayName_dedup_join.1]
    decide

/-- A non-empty string has positive length. -/
lemma string_ne_empty_length_pos {s : String} (h : s ≠ "") : 0 < s.length := by
  cases s with
  | mk data =>
    cases data with
    | nil => exact absurd rfl h
    | cons c cs => simp [String.length]

/-- The fold inside `String.intercalate` never shrinks the accumulator. -/
lemma intercalate_go_length :
    ∀ (l : List String) (acc s : String),
      acc.length ≤ (String.intercalate.go acc s l).length := by
  intro l
  induction l with
  | nil => intro acc s; exact Nat.le_refl _
  | cons a as ih =>
    intro acc s
    calc acc.length ≤ (acc ++ s ++ a).length := by
          rw [String.length_append, String.length_append]
          omega
      _ ≤ (String.intercalate.go (acc ++ s ++ a) s as).length := ih _ s

/-- Joining a list whose head is non-empty yields a non-empty string. -/
lemma intercalate_cons_ne_empty (a : String) (l : List String) (ha : a ≠ "") :
    String.intercalate ", " (a :: l) ≠ "" := by
  intro hcontr
  have h1 : String.intercalate ", " (a :: l) = String.intercalate.go a ", " l := rfl
  have h2 := intercalate_go_length l a ", "
  have h3 := string_ne_empty_length_pos ha
  rw [h1] at hcontr
  rw [hcontr] at h2
  simp at h2
  omega

/-- Every string the first-occurrence filter keeps is non-empty. -/
lemma mem_finalPartsAux_ne_empty :
    ∀ (l full : List (Option String)) (i : Nat) (s : String),
      s ∈ finalPartsAux full i l → s ≠ "" := by
  intro l
  induction l with
  | nil =>
    intro full i s h
    simp [finalPartsAux] at h
  | cons hd rest ih =>
    intro full i s h
    cases hd with
    | none =>
      simp only [finalPartsAux] at h
      exact ih full (i + 1) s h
    | some v =>
      simp only [finalPartsAux] at h
      by_cases hc : v ≠ "" ∧ jsIndexOf full (some v) = (i : Int)
      · rw [if_pos hc] at h
        rcases List.mem_cons.1 h with h' | h'
        · rw [h']
          exact hc.1
        · exact ih full (i + 1) s h'
      · rw [if_neg hc] at h
        exact ih full (i + 1) s h

/-- A display name the reverse-geocoding loop returns is non-empty. -/
lemma geoLoop_ok_ne_empty :
    ∀ (outs : List GeoAttempt) (attempt fetches : Nat) (waits : List Nat)
      (r : String) (tr : FetchTrace),
      geoLoop attempt outs fetches waits = ⟨.ok r, tr⟩ → r ≠ "" := by
  intro outs
  induction outs with
  | nil =>
    intro attempt f w r tr h
    simp [geoLoop] at h
  | cons o rest ih =>
    intro attempt f w r tr h
    cases o with
    | httpError status =>
      simp only [geoLoop] at h
      split at h
      · simp at h
      · exact ih _ _ _ r tr h
    | transport isAbort msg =>
      simp only [geoLoop] at h
      split at h
      · simp at h
      · split at h
        · simp at h
        · exact ih _ _ _ r tr h
    | success p =>
      simp only [geoLoop] at h
      split at h
      next hfp =>
        rw [GeoRun.mk.injEq] at h
        obtain ⟨h1, h2⟩ := h
        rw [Except.ok.injEq] at h1
        rcases hne : finalParts (geoFragments p) with _ | ⟨a, l⟩
        · exact absurd hne hfp
        · have ha : a ∈ finalParts (geoFragments p) := by
            rw [hne]
            exact List.mem_cons_self _ _
          have hane : a ≠ "" := mem_finalPartsAux_ne_empty _ _ _ _ ha
          rw [← h1, hne]
          exact intercalate_cons_ne_empty a l hane
      next hfp =>
        split at h
        · simp at h
        · exact ih _ _ _ r tr h

/-- The display name built from an IP payload is never empty: it falls back
to the sentinel text. -/
lemma ipDisplayName_ne_empty (p : IpPayload) : ipDisplayName p ≠ "" := by
  unfold ipDisplayName
  by_cases h :
      String.intercalate ", " ([p.city, p.region, p.country_name].filterMap strTruthy) = ""
  · rw [if_pos h]
    decide
  · rw [if_neg h]
    exact h

/-- A location the IP-fallback loop returns has a non-empty display name. -/
lemma ipLoop_ok_displayName :
    ∀ (outs : List IpAttempt) (attempt fetches : Nat) (waits : List Nat)
      (loc : LocationData) (tr : FetchTrace),
      ipLoop attempt outs fetches waits = (.ok loc, tr) → loc.displayName ≠ "" := by
  intro outs
  induction outs with
  | nil =>
    intro attempt f w loc tr h
    simp [ipLoop] at h
  | cons o rest ih =>
    intro attempt f w loc tr h
    cases o with
    | httpError status =>
      simp only [ipLoop] at h
      split at h
      · simp at h
      · exact ih _ _ _ loc tr h
    | transport isAbort msg =>
      simp only [ipLoop] at h
      split at h
      · simp at h
      · split at h
        · simp at h
        · exact ih _ _ _ loc tr h
    | success p =>
      simp only [ipLoop] at h
      split at h
      · split at h
        · simp at h
        · exact ih _ _ _ loc tr h
      · rw [Prod.mk.injEq] at h
        obtain ⟨h1, h2⟩ := h
        rw [IpResult.ok.injEq] at h1
        rw [← h1]
        exact ipDisplayName_ne_empty p

/-- A successful IP phase publishes a location with a non-empty display
name. -/
lemma ipPhase_displayName (prev : Option LocationData) (cache : Option CacheVal)
    (now : Nat) (outs : List IpAttempt) (fetches : Nat) (d : LocationData)
    (herr : (ipPhase prev cache now outs fetches).error = none)
    (hloc : (ipPhase prev cache now outs fetches).location = some d) :
    d.displayName ≠ "" := by
  unfold ipPhase at herr hloc
  rcases hip : ipLoop 1 outs fetches [] with ⟨res, tr⟩
  rw [hip] at herr hloc
  cases res with
  | ok loc =>
    simp only [Option.some.injEq] at hloc
    rw [← hloc]
    exact ipLoop_ok_displayName outs 1 fetches [] loc tr hip
  | err msg => simp at herr

/-- A successful fresh resolution publishes a location with a non-empty
display name. -/
lemma resolveFresh_displayName (prev : Option LocationData) (cache : Option CacheVal)
    (now : Nat) (env : LocEnv) (d : LocationData)
    (herr : (resolveFresh prev cache now env).error = none)
    (hloc : (resolveFresh prev cache now env).location = some d) :
    d.displayName ≠ "" := by
  unfold resolveFresh at herr hloc
  cases hgeo : env.geo with
  | unsupported =>
    simp only [hgeo] at herr hloc
    exact ipPhase_displayName _ _ _ _ _ _ herr hloc
  | failure msg =>
    simp only [hgeo] at herr hloc
    exact ipPhase_displayName _ _ _ _ _ _ herr hloc
  | position lat lon =>
    simp only [hgeo] at herr hloc
    by_cases hv : invalidCoords lat lon = true
    · rw [if_pos hv] at herr hloc
      exact ipPhase_displayName _ _ _ _ _ _ herr hloc
    · rw [if_neg hv] at herr hloc
      rcases hfr : fetchLocationName lat lon env.geoOutcomes with ⟨res, tr⟩
      rw [hfr] at herr hloc
      cases res with
      | ok name =>
        simp only [Option.some.injEq] at hloc
        rw [← hloc]
        have hgl : geoLoop 1 env.geoOutcomes 0 [] = ⟨.ok name, tr⟩ := by
          rw [fetchLocationName, if_neg hv] at hfr
          exact hfr
        exact geoLoop_ok_ne_empty env.geoOutcomes 1 0 [] name tr hgl
      | error e =>
        exact ipPhase_displayName _ _ _ _ _ _ herr hloc

/-- A `getLocation` run that reached the geolocation phase is exactly a
fresh resolution. -/
lemma getLocation_geoAttempted_eq (force : Bool) (prev : Option LocationData)
    (cache : Option CacheVal) (now : Nat) (env : LocEnv)
    (h : (getLocation force prev cache now env).geoAttempted = true) :
    getLocation force prev cache now env = resolveFresh prev cache now env := by
  cases force with
  | true => simp [getLocation]
  | false =>
    cases cache with
    | none => simp [getLocation]
    | some cv =>
      cases cv with
      | invalidJson msg => simp [getLocation] at h
      | entry ts dd =>
        by_cases hts : now - ts < CACHE_LOCATION
        · simp [getLocation, hts] at h
        · simp [getLocation, hts]

/-- **C7, counterexample**: the claim says that when no place-name fragment
resolves, resolution still succeeds with the sentinel text; but in a run
where geolocation succeeds, all three reverse-geocoding attempts return
fragment-less payloads, and the IP fallback's three attempts all fail in
transport, no fragment ever resolves and the resolution ends in a
user-visible error — not in a sentinel success. -/
theorem getLocation_no_fragments_fails :
    getLocation false none none 0
      { geo := .position (.num 40) (.num (-3)),
        geoOutcomes := [.success {}, .success {}, .success {}],
        ipOutcomes := [.transport false "ip down", .transport false "ip down",
                       .transport false "ip down"] }
      = ⟨none, some "ip down", false, none, true, 6⟩ := by decide

/-- **C7, amended**: whenever a fresh location resolution succeeds (the run
reached the geolocation phase and ended with no error), the published
record's `displayName` is non-empty; and on the IP-fallback path a payload
with no place-name fragment still yields the sentinel text
`Ubicación desconocida` rather than an empty name.  (A reverse-geocoding
response with no fragments is instead treated as a failure,
`No location parts found`, which triggers the IP fallback.) -/
theorem resolution_displayName_nonempty :
    (∀ force prev cache now env d,
      (getLocation force prev cache now env).geoAttempted = true →
      (getLocation force prev cache now env).error = none →
      (getLocation force prev cache now env).location = some d →
      d.displayName ≠ "") ∧
    (∀ p : IpPayload, p.city = none → p.region = none → p.country_name = none →
      ipDisplayName p = "Ubicación desconocida") := by
  constructor
  · intro force prev cache now env d hga herr hloc
    have heq := getLocation_geoAttempted_eq force prev cache now env hga
    rw [heq] at herr hloc
    exact resolveFresh_displayName prev cache now env d herr hloc
  · intro p hc hr hn
    unfold ipDisplayName
    rw [hc, hr, hn]
    simp [strTruthy, String.intercalate]

/-- Witness for C7's amended theorem at concrete inputs: a successful
geolocation+geocoding run publishes `Madrid` (non-empty), and an IP payload
with no fragments maps to the sentinel text. -/
theorem resolution_displayName_nonempty_witness :
    (⟨.num 40, .num (-3), "Madrid"⟩ : LocationData).displayName ≠ "" ∧
    ipDisplayName { latitude := .num 1, longitude := .num 2 }
      = "Ubicación desconocida" := by
  constructor
  · exact resolution_displayName_nonempty.1 true none none 7000
      { geo := .position (.num 40) (.num (-3)),
        geoOutcomes := [.success { city := some "Madrid" }] }
      ⟨.num 40, .num (-3), "Madrid"⟩ (by decide) (by decide) (by decide)
  · exact resolution_displayName_nonempty.2
      { latitude := .num 1, longitude := .num 2 } rfl rfl rfl
